import Mathlib

/-!
# MapleTrade financial-analysis engine — verification development

A shallow embedding, in Lean 4, of the data-acquisition, normalization and
scoring engine of the MapleTrade repository
(`mapletrade/financial_analysis_agent/agent.py` and
`mapletrade/coordinator_agent/sub_agents/data_collection_agent/tools.py`).

Python dictionaries of optional numeric metrics become structures of
`Option ℚ` fields; the network is modelled as an explicit environment
(`Market`) mapping endpoints to typed outcomes; every function is total and
returns its failure cases as data, mirroring the source's
catch-and-return-error-dict style.  Fields of the source's result
dictionaries that no downstream logic ever reads (pure pass-through payload
such as `ps_ratio`, insight prose, timestamps) are projected away; every
field that any branch, comparison or score reads is kept.
-/

/-- The metric fields of one row of the FMP `ratios-ttm` / `ratios` payload
that the downstream analysis reads.  `none` models a JSON field that is
absent or `null` (Python `dict.get` yields `None` either way). -/
structure FmpRatioRow where
  priceEarningsRatio : Option ℚ
  priceToBookRatio : Option ℚ
  returnOnEquity : Option ℚ
  netProfitMargin : Option ℚ
  currentRatio : Option ℚ
  quickRatio : Option ℚ
  debtEquityRatio : Option ℚ
  assetTurnover : Option ℚ
  deriving DecidableEq, Repr

/-- An `FmpRatioRow` with every metric absent: the embedding of an empty
JSON object `{}` appearing as a row of the payload array. -/
def FmpRatioRow.empty : FmpRatioRow :=
  ⟨none, none, none, none, none, none, none, none⟩

/-- The raw outcome of one single HTTP attempt inside
`fetch_fmp_data_with_retry`:
* `ok rows` — the request succeeded and the body parsed as a JSON array
  (an empty array is the falsy `not data` case of the source);
* `errorPayload msg` — the body parsed as an object carrying an
  `"Error Message"` field;
* `netError msg` — `requests.exceptions.RequestException`
  (connection error, timeout, or non-2xx status via `raise_for_status`);
* `parseError msg` — `json.JSONDecodeError`;
* `otherError msg` — any other exception. -/
inductive RawResponse where
  | ok (rows : List FmpRatioRow)
  | errorPayload (msg : String)
  | netError (msg : String)
  | parseError (msg : String)
  | otherError (msg : String)
  deriving DecidableEq, Repr

/-- The dictionary returned by `fetch_fmp_data_with_retry`: either
`{"data": rows, "source": "FMP", "timestamp": ...}` or
`{"error": msg, "endpoint": ...}` (the constant `source`/`timestamp`/
`endpoint` bookkeeping fields are dropped — nothing reads them). -/
inductive FmpResult where
  | data (rows : List FmpRatioRow)
  | error (msg : String)
  deriving DecidableEq, Repr

/-- Instrumented result of a whole `fetch_fmp_data_with_retry` call:
the returned dictionary, the number of HTTP requests issued, and the
backoff delays slept between attempts (`time.sleep(2 ** attempt)`),
in order. -/
structure FetchTrace where
  result : FmpResult
  calls : ℕ
  sleeps : List ℕ
  deriving DecidableEq, Repr

/-- The body of the retry loop of `fetch_fmp_data_with_retry`, one clause
per `attempt` of `range(max_retries)`, recursing on the fuel
`remaining = max_retries - attempt`.  `responses attempt` is the raw
outcome of the HTTP attempt numbered `attempt`. -/
def fetchGo (responses : ℕ → RawResponse) (max_retries : ℕ) :
    ℕ → ℕ → FetchTrace
  | _, 0 =>
      { result := .error ("Max retries (" ++ toString max_retries ++ ") exceeded"),
        calls := 0, sleeps := [] }
  | attempt, remaining + 1 =>
      match responses attempt with
      | .ok rows =>
          if rows.isEmpty then
            if attempt < max_retries - 1 then
              let t := fetchGo responses max_retries (attempt + 1) remaining
              { result := t.result, calls := t.calls + 1,
                sleeps := 2 ^ attempt :: t.sleeps }
            else
              { result := .error "No data returned from FMP API",
                calls := 1, sleeps := [] }
          else
            { result := .data rows, calls := 1, sleeps := [] }
      | .errorPayload m =>
          { result := .error ("FMP API Error: " ++ m), calls := 1, sleeps := [] }
      | .netError m =>
          if attempt < max_retries - 1 then
            let t := fetchGo responses max_retries (attempt + 1) remaining
            { result := t.result, calls := t.calls + 1,
              sleeps := 2 ^ attempt :: t.sleeps }
          else
            { result := .error ("FMP API request failed after " ++
                toString max_retries ++ " attempts: " ++ m),
              calls := 1, sleeps := [] }
      | .parseError m =>
          if attempt < max_retries - 1 then
            let t := fetchGo responses max_retries (attempt + 1) remaining
            { result := t.result, calls := t.calls + 1,
              sleeps := 2 ^ attempt :: t.sleeps }
          else
            { result := .error ("Invalid JSON response from FMP: " ++ m),
              calls := 1, sleeps := [] }
      | .otherError m =>
          { result := .error ("Unexpected error fetching from FMP: " ++ m),
            calls := 1, sleeps := [] }

/-- `fetch_fmp_data_with_retry(endpoint, params, max_retries)`, with the
network abstracted as the per-attempt outcome function `responses`
(the `endpoint`/`params` arguments only select which URL is hit, which the
environment already fixes). -/
def fetch_fmp_data_with_retry (responses : ℕ → RawResponse)
    (max_retries : ℕ) : FetchTrace :=
  fetchGo responses max_retries 0 max_retries

/-- Python `str.upper()`, embedded character-wise over the string's
character list (ASCII case mapping, all the alphabet the tickers use). -/
def pyUpper (s : String) : String :=
  ⟨s.data.map Char.toUpper⟩

/-- Python `str.strip()`: drop leading and trailing whitespace. -/
def pyStrip (s : String) : String :=
  ⟨((s.data.dropWhile Char.isWhitespace).reverse.dropWhile
      Char.isWhitespace).reverse⟩

/-- Python `str.endswith(suffix)`. -/
def pyEndsWith (s suffix : String) : Bool :=
  suffix.data.isSuffixOf s.data

/-- Python slicing `s[:-n]`: drop the last `n` characters. -/
def pyDropRight (s : String) (n : ℕ) : String :=
  ⟨s.data.take (s.data.length - n)⟩

/-- Python `a + b` on strings. -/
def pyCat (a b : String) : String :=
  ⟨a.data ++ b.data⟩

/-- `normalize_canadian_symbol`: uppercase and trim, then map between the
Yahoo (`.TO`) and FMP (`.TRT`) wire forms, appending the venue default
suffix when neither known suffix is present.  Returns
`(yahoo_symbol, fmp_symbol)`. -/
def normalize_canadian_symbol (symbol : String) : String × String :=
  let s := pyStrip (pyUpper symbol)
  if pyEndsWith s ".TO" then
    (s, pyCat (pyDropRight s 3) ".TRT")
  else if pyEndsWith s ".TRT" then
    (pyCat (pyDropRight s 4) ".TO", s)
  else
    (pyCat s ".TO", pyCat s ".TRT")


/-- The `valuation_metrics` dictionary fields the downstream logic reads. -/
structure ValuationMetrics where
  pe_ratio : Option ℚ
  pb_ratio : Option ℚ
  deriving DecidableEq, Repr

/-- The `profitability_ratios` dictionary fields the downstream logic reads. -/
structure ProfitabilityRatios where
  roe : Option ℚ
  net_margin : Option ℚ
  deriving DecidableEq, Repr

/-- The `liquidity_ratios` dictionary fields the downstream logic reads. -/
structure LiquidityRatios where
  current_ratio : Option ℚ
  quick_ratio : Option ℚ
  deriving DecidableEq, Repr

/-- The `leverage_ratios` dictionary field the downstream logic reads. -/
structure LeverageRatios where
  debt_to_equity : Option ℚ
  deriving DecidableEq, Repr

/-- The `efficiency_ratios` dictionary field the downstream logic reads. -/
structure EfficiencyRatios where
  asset_turnover : Option ℚ
  deriving DecidableEq, Repr

/-- The fields of the Yahoo Finance `ticker.info` mapping that
`calculate_financial_ratios` reads in its fallback branch. -/
structure YahooInfo where
  trailingPE : Option ℚ
  priceToBook : Option ℚ
  returnOnEquity : Option ℚ
  profitMargins : Option ℚ
  currentRatio : Option ℚ
  quickRatio : Option ℚ
  debtToEquity : Option ℚ
  deriving DecidableEq, Repr

/-- The result dictionary of `calculate_financial_ratios`.  Each ratio
category is `Option` of its structure: `none` is the initial empty dict
`{}` (a metric key not present in the category at all), `some` is the
dict written by a provider branch (whose individual values may still be
absent).  The prose lists (`educational_insights`, `warnings`) and
timestamps are projected away — no branch, comparison or score reads
them. -/
structure RatiosResult where
  symbol : String
  data_sources : List String
  valuation_metrics : Option ValuationMetrics
  profitability_ratios : Option ProfitabilityRatios
  liquidity_ratios : Option LiquidityRatios
  leverage_ratios : Option LeverageRatios
  efficiency_ratios : Option EfficiencyRatios
  roe_trend_pct : Option ℚ
  errors : List String
  deriving DecidableEq, Repr

/-- The empty result skeleton built at the top of
`calculate_financial_ratios`. -/
def RatiosResult.init (yahoo_symbol : String) : RatiosResult :=
  { symbol := yahoo_symbol, data_sources := [], valuation_metrics := none,
    profitability_ratios := none, liquidity_ratios := none,
    leverage_ratios := none, efficiency_ratios := none,
    roe_trend_pct := none, errors := [] }

/-- The external world as the engine sees it:
* `fmp endpoint` — the dictionary `fetch_fmp_data_with_retry(endpoint, …)`
  returns (the retry loop already resolved, see `fetchGo` for its model);
* `yahooInfo sym` — the Yahoo `ticker.info` call for symbol `sym`:
  `.error e` models the `yf.Ticker`/`.info` access raising (caught by the
  inner `except` which records `"Yahoo Finance error: …"`), `.ok none` a
  falsy `info`, `.ok (some i)` a populated mapping;
* `exn sym` — `some e` models an unexpected exception with message `e`
  escaping the inner handlers while `calculate_financial_ratios(sym)`
  runs, caught by its outer `except Exception` (the only way the function
  returns a dictionary carrying an `"error"` key). -/
structure Market where
  fmp : String → FmpResult
  yahooInfo : String → Except String (Option YahooInfo)
  exn : String → Option String

/-- Python `round(x, n)`: round half to even at `n` decimal places
(the float representation of the source is idealised to exact rationals). -/
def pyRound (x : ℚ) (n : ℕ) : ℚ :=
  let scaled := x * (10 : ℚ) ^ n
  let fl : ℤ := ⌊scaled⌋
  let frac := scaled - (fl : ℚ)
  let r : ℤ :=
    if frac < 1 / 2 then fl
    else if 1 / 2 < frac then fl + 1
    else if 2 ∣ fl then fl else fl + 1
  (r : ℚ) / (10 : ℚ) ^ n

/-- The body of `calculate_financial_ratios` (minus the outer
`try`/`except`): TTM ratios from FMP, annual ratios for the ROE trend,
then the Yahoo Finance fallback when no FMP source succeeded. -/
def calcRatiosCore (m : Market) (symbol : String) : RatiosResult :=
  let norm := normalize_canadian_symbol symbol
  let yahoo_symbol := norm.1
  let fmp_symbol := norm.2
  let r0 := RatiosResult.init yahoo_symbol
  -- 1. FMP TTM ratios
  let fmp_ratios_ttm := m.fmp (pyCat "ratios-ttm/" fmp_symbol)
  let r1 :=
    match fmp_ratios_ttm with
    | .data (ratio_data :: _) =>
        { r0 with
          data_sources := r0.data_sources ++ ["FMP TTM Ratios"],
          valuation_metrics :=
            some ⟨ratio_data.priceEarningsRatio, ratio_data.priceToBookRatio⟩,
          profitability_ratios :=
            some ⟨ratio_data.returnOnEquity, ratio_data.netProfitMargin⟩,
          liquidity_ratios :=
            some ⟨ratio_data.currentRatio, ratio_data.quickRatio⟩,
          leverage_ratios := some ⟨ratio_data.debtEquityRatio⟩,
          efficiency_ratios := some ⟨ratio_data.assetTurnover⟩ }
    | .data [] =>
        { r0 with errors :=
            r0.errors ++ ["FMP TTM ratios unavailable: Unknown error"] }
    | .error e =>
        { r0 with errors :=
            r0.errors ++ [pyCat "FMP TTM ratios unavailable: " e] }
  -- 2. FMP annual ratios (ROE trend)
  let fmp_ratios_annual := m.fmp (pyCat "ratios/" fmp_symbol)
  let r2 :=
    match fmp_ratios_annual with
    | .data (a0 :: rest) =>
        let r := { r1 with
          data_sources := r1.data_sources ++ ["FMP Annual Ratios"] }
        match rest with
        | a1 :: _ =>
            let current_roe := a0.returnOnEquity.getD 0
            let prior_roe := a1.returnOnEquity.getD 0
            if current_roe ≠ 0 ∧ prior_roe ≠ 0 then
              let trend := pyRound ((current_roe - prior_roe) / prior_roe * 100) 2
              { r with roe_trend_pct := some trend }
            else r
        | [] => r
    | .data [] => r1
    | .error _ => r1
  -- 3. Yahoo Finance fallback
  if r2.data_sources.isEmpty then
    match m.yahooInfo yahoo_symbol with
    | .ok (some info) =>
        { r2 with
          data_sources := r2.data_sources ++ ["Yahoo Finance"],
          valuation_metrics := some ⟨info.trailingPE, info.priceToBook⟩,
          profitability_ratios := some ⟨info.returnOnEquity, info.profitMargins⟩,
          liquidity_ratios := some ⟨info.currentRatio, info.quickRatio⟩,
          leverage_ratios := some ⟨info.debtToEquity⟩ }
    | .ok none => r2
    | .error e =>
        { r2 with errors := r2.errors ++ [pyCat "Yahoo Finance error: " e] }
  else r2

/-- `calculate_financial_ratios`: the outer `try`/`except` around
`calcRatiosCore`, returning the `{"error": …}` dictionary when an
unexpected exception escapes. -/
def calculate_financial_ratios (m : Market) (symbol : String) :
    Except String RatiosResult :=
  match m.exn symbol with
  | some e => .error (pyCat "Critical error in financial ratio calculation: " e)
  | none => .ok (calcRatiosCore m symbol)

/-- `analysis.get("profitability_ratios", {}).get("roe")`. -/
def RatiosResult.roe (a : RatiosResult) : Option ℚ :=
  a.profitability_ratios.bind ProfitabilityRatios.roe

/-- `analysis.get("profitability_ratios", {}).get("net_margin")`. -/
def RatiosResult.net_margin (a : RatiosResult) : Option ℚ :=
  a.profitability_ratios.bind ProfitabilityRatios.net_margin

/-- `analysis.get("liquidity_ratios", {}).get("current_ratio")`. -/
def RatiosResult.current_ratio (a : RatiosResult) : Option ℚ :=
  a.liquidity_ratios.bind LiquidityRatios.current_ratio

/-- `analysis.get("liquidity_ratios", {}).get("quick_ratio")`. -/
def RatiosResult.quick_ratio (a : RatiosResult) : Option ℚ :=
  a.liquidity_ratios.bind LiquidityRatios.quick_ratio

/-- `analysis.get("leverage_ratios", {}).get("debt_to_equity")`. -/
def RatiosResult.debt_to_equity (a : RatiosResult) : Option ℚ :=
  a.leverage_ratios.bind LeverageRatios.debt_to_equity

/-- `analysis.get("valuation_metrics", {}).get("pe_ratio")`. -/
def RatiosResult.pe_ratio (a : RatiosResult) : Option ℚ :=
  a.valuation_metrics.bind ValuationMetrics.pe_ratio

/-- `analysis.get("valuation_metrics", {}).get("pb_ratio")`. -/
def RatiosResult.pb_ratio (a : RatiosResult) : Option ℚ :=
  a.valuation_metrics.bind ValuationMetrics.pb_ratio

/-- `analysis.get("efficiency_ratios", {}).get("asset_turnover")`. -/
def RatiosResult.asset_turnover (a : RatiosResult) : Option ℚ :=
  a.efficiency_ratios.bind EfficiencyRatios.asset_turnover

/-- The ROE contribution to the profitability score: `if roe:` is Python
truthiness (`None` and `0` both falsy), then the `roe_pct` band ladder. -/
def roeTerm (roe : Option ℚ) : ℕ :=
  match roe with
  | some v =>
      if v ≠ 0 then
        let roe_pct := if v < 1 then v * 100 else v
        if roe_pct > 20 then 10
        else if roe_pct > 15 then 8
        else if roe_pct > 10 then 6
        else if roe_pct > 5 then 4
        else 0
      else 0
  | none => 0

/-- The net-margin contribution to the profitability score. -/
def marginTerm (net_margin : Option ℚ) : ℕ :=
  match net_margin with
  | some v =>
      if v ≠ 0 then
        let margin_pct := if v < 1 then v * 100 else v
        if margin_pct > 15 then 10
        else if margin_pct > 10 then 8
        else if margin_pct > 5 then 6
        else if margin_pct > 0 then 4
        else 0
      else 0
  | none => 0

/-- The current-ratio contribution to the liquidity score. -/
def currentRatioTerm (current_ratio : Option ℚ) : ℕ :=
  match current_ratio with
  | some v =>
      if v ≠ 0 then
        if 1.5 ≤ v ∧ v ≤ 3.0 then 10
        else if 1.0 ≤ v ∧ v < 1.5 then 7
        else if v ≥ 3.0 then 6
        else if v ≥ 0.8 then 4
        else 0
      else 0
  | none => 0

/-- The quick-ratio contribution to the liquidity score. -/
def quickRatioTerm (quick_ratio : Option ℚ) : ℕ :=
  match quick_ratio with
  | some v =>
      if v ≠ 0 then
        if v ≥ 1.0 then 10
        else if v ≥ 0.7 then 7
        else if v ≥ 0.5 then 4
        else 0
      else 0
  | none => 0

/-- The leverage score: note the `is not None` test — unlike every other
metric, an explicit `0` here is scored (and lands in the best band). -/
def leverageScore (debt_to_equity : Option ℚ) : ℕ :=
  match debt_to_equity with
  | some v =>
      if v ≤ 0.3 then 20
      else if v ≤ 0.6 then 15
      else if v ≤ 1.0 then 10
      else if v ≤ 2.0 then 5
      else 0
  | none => 0

/-- The P/E contribution to the valuation score
(`if pe_ratio and pe_ratio > 0:`). -/
def peTerm (pe_ratio : Option ℚ) : ℕ :=
  match pe_ratio with
  | some v =>
      if v ≠ 0 ∧ v > 0 then
        if 10 ≤ v ∧ v ≤ 20 then 10
        else if (8 ≤ v ∧ v < 10) ∨ (20 < v ∧ v ≤ 25) then 8
        else if (5 ≤ v ∧ v < 8) ∨ (25 < v ∧ v ≤ 30) then 6
        else if v > 30 then 2
        else 0
      else 0
  | none => 0

/-- The P/B contribution to the valuation score
(`if pb_ratio and pb_ratio > 0:`). -/
def pbTerm (pb_ratio : Option ℚ) : ℕ :=
  match pb_ratio with
  | some v =>
      if v ≠ 0 ∧ v > 0 then
        if 1.0 ≤ v ∧ v ≤ 3.0 then 10
        else if (0.5 ≤ v ∧ v < 1.0) ∨ (3.0 < v ∧ v ≤ 5.0) then 8
        else if v > 5.0 then 4
        else 0
      else 0
  | none => 0

/-- The efficiency score: base score `10` when the metric is falsy
(absent or zero), otherwise the asset-turnover band ladder. -/
def efficiencyScore (asset_turnover : Option ℚ) : ℕ :=
  match asset_turnover with
  | some v =>
      if v ≠ 0 then
        if v ≥ 1.0 then 20
        else if v ≥ 0.75 then 15
        else if v ≥ 0.5 then 10
        else 5
      else 10
  | none => 10

/-- The `scores` dictionary of `analyze_financial_health_score`. -/
structure ScoreBreakdown where
  profitability : ℕ
  liquidity : ℕ
  leverage : ℕ
  valuation : ℕ
  efficiency : ℕ
  deriving DecidableEq, Repr

/-- `sum(scores.values())`. -/
def ScoreBreakdown.total (s : ScoreBreakdown) : ℕ :=
  s.profitability + s.liquidity + s.leverage + s.valuation + s.efficiency

/-- The scoring core of `analyze_financial_health_score`, over the eight
metric values it extracts from the ratio analysis. -/
def healthScores (roe net_margin current_ratio quick_ratio debt_to_equity
    pe_ratio pb_ratio asset_turnover : Option ℚ) : ScoreBreakdown :=
  { profitability := roeTerm roe + marginTerm net_margin,
    liquidity := currentRatioTerm current_ratio + quickRatioTerm quick_ratio,
    leverage := leverageScore debt_to_equity,
    valuation := peTerm pe_ratio + pbTerm pb_ratio,
    efficiency := efficiencyScore asset_turnover }

/-- The grade table of `_interpret_health_score`. -/
def healthGrade (total_score : ℕ) : String :=
  if total_score ≥ 80 then "Excellent (A)"
  else if total_score ≥ 70 then "Good (B)"
  else if total_score ≥ 60 then "Fair (C)"
  else if total_score ≥ 50 then "Poor (D)"
  else "Very Poor (F)"

/-- The result dictionary of `analyze_financial_health_score` (prose
fields projected away). -/
structure HealthResult where
  symbol : String
  health_score : ℕ
  score_breakdown : ScoreBreakdown
  health_grade : String
  deriving DecidableEq, Repr

/-- `analyze_financial_health_score`: ratio analysis, then the five
subscores, their sum, and the grade interpretation. -/
def analyze_financial_health_score (m : Market) (symbol : String) :
    Except String HealthResult :=
  match calculate_financial_ratios m symbol with
  | .error e => .error (pyCat "Could not calculate health score: " e)
  | .ok analysis =>
      let scores := healthScores analysis.roe analysis.net_margin
        analysis.current_ratio analysis.quick_ratio analysis.debt_to_equity
        analysis.pe_ratio analysis.pb_ratio analysis.asset_turnover
      .ok { symbol := analysis.symbol,
            health_score := scores.total,
            score_breakdown := scores,
            health_grade := healthGrade scores.total }

/-- `TSX_MAJOR_STOCKS`, as the ordered association list
`symbol ↦ (name, sector)` that Python 3.7+ dict iteration yields
(the per-entry `fmp_symbol` strings are dropped — nothing reads them). -/
def TSX_MAJOR_STOCKS : List (String × String × String) :=
  [("SHOP.TO", "Shopify Inc", "Technology"),
   ("TD.TO", "Toronto-Dominion Bank", "Financial Services"),
   ("RY.TO", "Royal Bank of Canada", "Financial Services"),
   ("CNR.TO", "Canadian National Railway", "Industrials"),
   ("SU.TO", "Suncor Energy", "Energy"),
   ("WEED.TO", "Canopy Growth", "Healthcare"),
   ("AC.TO", "Air Canada", "Industrials"),
   ("BBD-B.TO", "Bombardier Inc", "Industrials")]

/-- `symbol in TSX_MAJOR_STOCKS` / `TSX_MAJOR_STOCKS[symbol]`. -/
def tsxLookup (symbol : String) : Option (String × String) :=
  (TSX_MAJOR_STOCKS.find? (fun e => e.1 == symbol)).map (fun e => e.2)

/-- The metric keys of `metrics_to_compare` in `perform_peer_comparison`.
Each lives in exactly one of the four category dictionaries the
`for category in […]` scan of `_compare_metric_across_peers` visits. -/
inductive MetricKey where
  | pe_ratio
  | pb_ratio
  | roe
  | current_ratio
  | debt_to_equity
  deriving DecidableEq, Repr

/-- The category scan of `_compare_metric_across_peers`: `none` when the
key's category dictionary is still the initial `{}` (the scan falls
through without a `break`), `some v` when the scan broke at the category
holding the key, `v` being the stored value (possibly `None`). -/
def lookupMetric (a : RatiosResult) : MetricKey → Option (Option ℚ)
  | .pe_ratio => a.valuation_metrics.map ValuationMetrics.pe_ratio
  | .pb_ratio => a.valuation_metrics.map ValuationMetrics.pb_ratio
  | .roe => a.profitability_ratios.map ProfitabilityRatios.roe
  | .current_ratio => a.liquidity_ratios.map LiquidityRatios.current_ratio
  | .debt_to_equity => a.leverage_ratios.map LeverageRatios.debt_to_equity

/-- The comparison dictionary returned by
`_compare_metric_across_peers`. -/
structure MetricComparison where
  metric_name : String
  primary_value : ℚ
  peer_average : ℚ
  peer_values : List (String × ℚ)
  vs_peers : String
  percentile : ℚ
  deriving DecidableEq, Repr

/-- `_compare_metric_across_peers`: extract the primary value, collect
the peers' values for the metric, then mean, classification and
percentile over `all_values = peer values + [primary]`. -/
def compare_metric_across_peers (primary_analysis : RatiosResult)
    (peer_data : List (String × RatiosResult)) (k : MetricKey)
    (metric_name : String) : Option MetricComparison :=
  match lookupMetric primary_analysis k with
  | none => none
  | some none => none
  | some (some primary_value) =>
      let peer_values := peer_data.filterMap (fun p =>
        match lookupMetric p.2 k with
        | some (some v) => some (p.1, v)
        | _ => none)
      if peer_values.isEmpty then none
      else
        let vals := peer_values.map (fun q => q.2)
        let all_values := vals ++ [primary_value]
        let peer_avg := vals.sum / (vals.length : ℚ)
        some { metric_name := metric_name,
               primary_value := primary_value,
               peer_average := pyRound peer_avg 3,
               peer_values := peer_values,
               vs_peers := if primary_value > peer_avg then "Above Average"
                           else "Below Average",
               percentile := pyRound
                 (((all_values.countP (fun v => v < primary_value)) : ℚ) /
                   (all_values.length : ℚ) * 100) 1 }

/-- Python truthiness of the optional `sector` string argument:
`None` and `""` are falsy. -/
def strTruthy : Option String → Bool
  | none => false
  | some s => s ≠ ""

/-- The result dictionary of `perform_peer_comparison` (ranking prose
dropped except the default-peer-set notice, which marks the branch
taken).  Nothing in the function body ever appends to `errors`. -/
structure PeerComparisonResult where
  primary_stock : String
  sector : Option String
  peer_comparison : List (MetricKey × MetricComparison)
  educational_insights : List String
  errors : List String
  deriving Repr

/-- `metrics_to_compare`. -/
def metrics_to_compare : List (MetricKey × String) :=
  [(.pe_ratio, "P/E Ratio"),
   (.pb_ratio, "P/B Ratio"),
   (.roe, "Return on Equity"),
   (.current_ratio, "Current Ratio"),
   (.debt_to_equity, "Debt-to-Equity")]

/-- `perform_peer_comparison`: analyze the primary, auto-detect the
sector, select at most three sector peers (or the default major-stock
set), analyze each peer keeping only non-error results, and compare the
five key metrics. -/
def perform_peer_comparison (m : Market) (symbol : String)
    (sector : Option String) : Except String PeerComparisonResult :=
  let norm := normalize_canadian_symbol symbol
  let yahoo_symbol := norm.1
  match calculate_financial_ratios m symbol with
  | .error e => .error (pyCat "Could not analyze primary stock: " e)
  | .ok primary_analysis =>
      let detected := tsxLookup yahoo_symbol
      let autodetect := ¬ strTruthy sector ∧ detected.isSome
      let sectorLoc : Option String :=
        if autodetect then detected.map (fun q => q.2) else sector
      let sectorPeers :=
        if strTruthy sectorLoc then
          (TSX_MAJOR_STOCKS.filter (fun e =>
            some e.2.2 == sectorLoc && e.1 != yahoo_symbol)).map (fun e => e.1)
        else []
      let useDefault := sectorPeers.isEmpty
      let peers :=
        if useDefault then
          ((TSX_MAJOR_STOCKS.map (fun e => e.1)).filter
            (fun s => s != yahoo_symbol)).take 3
        else sectorPeers
      let insights :=
        if useDefault then
          ["Using major TSX stocks for comparison due to limited sector data"]
        else []
      let peer_data := (peers.take 3).filterMap (fun peer =>
        match calculate_financial_ratios m peer with
        | .ok a => some (peer, a)
        | .error _ => none)
      let comparisons := metrics_to_compare.filterMap (fun p =>
        (compare_metric_across_peers primary_analysis peer_data p.1 p.2).map
          (fun c => (p.1, c)))
      .ok { primary_stock := yahoo_symbol,
            sector := sectorLoc,
            peer_comparison := comparisons,
            educational_insights := insights,
            errors := [] }

/-- The `data_quality` dictionary of the comprehensive report: each flag
is `none` while its key has never been written. -/
structure DataQuality where
  ratios_available : Option Bool
  health_score_available : Option Bool
  peer_comparison_available : Option Bool
  deriving DecidableEq, Repr

/-- The comprehensive report (executive summary, recommendations and
educational prose are derived display text and are projected away). -/
structure Report where
  symbol : String
  company_name : String
  detailed_analysis : Option RatiosResult
  health_score : Option HealthResult
  peer_comparison : Option PeerComparisonResult
  data_quality : DataQuality
  errors : List String
  deriving Repr

/-- `generate_comprehensive_report`: run the ratio, health-score and
(for known TSX majors) peer-comparison stages, recording an
availability flag and collecting the error message of every stage that
returned an error dictionary.  Always returns a report. -/
def generate_comprehensive_report (m : Market) (symbol : String) : Report :=
  let norm := normalize_canadian_symbol symbol
  let yahoo_symbol := norm.1
  let company_name :=
    match tsxLookup yahoo_symbol with
    | some q => q.1
    | none => "Unknown Company"
  -- 1. Financial ratios analysis
  let ratios_analysis := calculate_financial_ratios m symbol
  let st1 : Option RatiosResult × DataQuality × List String :=
    match ratios_analysis with
    | .ok a => (some a, ⟨some true, none, none⟩, [])
    | .error e => (none, ⟨some false, none, none⟩, [pyCat "Ratios analysis: " e])
  -- 2. Financial health score
  let health_analysis := analyze_financial_health_score m symbol
  let st2 : Option HealthResult × DataQuality × List String :=
    match health_analysis with
    | .ok h =>
        (some h, { st1.2.1 with health_score_available := some true }, st1.2.2)
    | .error e =>
        (none, { st1.2.1 with health_score_available := some false },
         st1.2.2 ++ [pyCat "Health score: " e])
  -- 3. Peer comparison, only when the symbol is a known TSX major
  let st3 : Option PeerComparisonResult × DataQuality × List String :=
    match tsxLookup yahoo_symbol with
    | some q =>
        match perform_peer_comparison m symbol (some q.2) with
        | .ok p =>
            (some p, { st2.2.1 with peer_comparison_available := some true },
             st2.2.2)
        | .error e =>
            (none, { st2.2.1 with peer_comparison_available := some false },
             st2.2.2 ++ [pyCat "Peer comparison: " e])
    | none => (none, st2.2.1, st2.2.2)
  { symbol := yahoo_symbol,
    company_name := company_name,
    detailed_analysis := st1.1,
    health_score := st2.1,
    peer_comparison := st3.1,
    data_quality := st3.2.1,
    errors := st3.2.2 }

/-- The outcome of one `collect_tsx_data` call as `collect_multiple_stocks`
observes it: either a dictionary with a `market_data` entry (price and
volume are what the batch loop copies out) or an error dictionary. -/
inductive CollectResult where
  | ok (price : ℚ) (volume : ℤ)
  | error (msg : String)
  deriving DecidableEq, Repr

/-- The result dictionary of `collect_multiple_stocks`
(`success_rate` is the rendered `"{successes}/{total}"` string). -/
structure BatchResults where
  total_symbols : ℕ
  successful : List (String × ℚ × ℤ)
  failed : List (String × String)
  success_rate : String
  ready_for_storage : ℕ
  deriving DecidableEq, Repr

/-- The loop body of `collect_multiple_stocks`. -/
def batchStep (collect : String → CollectResult)
    (acc : List (String × ℚ × ℤ) × List (String × String)) (symbol : String) :
    List (String × ℚ × ℤ) × List (String × String) :=
  match collect symbol with
  | .ok price volume => (acc.1 ++ [(symbol, price, volume)], acc.2)
  | .error e => (acc.1, acc.2 ++ [(symbol, e)])

/-- `collect_multiple_stocks`, with `collect_tsx_data` abstracted as the
per-symbol outcome function `collect`.  The loop runs over
`symbols[:5]` only, while `total_symbols` and the `success_rate`
denominator use the full input list. -/
def collect_multiple_stocks (collect : String → CollectResult)
    (symbols : List String) : BatchResults :=
  let processed := (symbols.take 5).foldl (batchStep collect) ([], [])
  { total_symbols := symbols.length,
    successful := processed.1,
    failed := processed.2,
    success_rate :=
      toString processed.1.length ++ "/" ++ toString symbols.length,
    ready_for_storage := processed.1.length }

/-- A ratio analysis fixture: only the P/E value populated. -/
def peOnlyAnalysis (sym : String) (pe : ℚ) : RatiosResult :=
  { RatiosResult.init sym with valuation_metrics := some ⟨some pe, none⟩ }

/-- An FMP payload row fixture: only the P/E value populated. -/
def peRow (pe : ℚ) : FmpRatioRow :=
  ⟨some pe, none, none, none, none, none, none, none⟩

/-- Peer data fixture for the percentile scenario: peer P/E values
10, 20 and 30. -/
def percentilePeers : List (String × RatiosResult) :=
  [("TD.TO", peOnlyAnalysis "TD.TO" 10),
   ("RY.TO", peOnlyAnalysis "RY.TO" 20),
   ("CNR.TO", peOnlyAnalysis "CNR.TO" 30)]

/-- A fully populated Yahoo `info` fixture. -/
def yahooFixture : YahooInfo :=
  ⟨some 12, some 2, some (1 / 5), some (1 / 10), some 2, some 1, some (1 / 2)⟩

/-- Market fixture for the fallback-ordering scenario: the FMP TTM
endpoint for `XYZ.TRT` answers successfully with one empty row (a
`Success` with zero usable fields), every other FMP endpoint fails, and
Yahoo has full data. -/
def emptyRowMarket : Market :=
  { fmp := fun ep =>
      if ep = "ratios-ttm/XYZ.TRT" then .data [FmpRatioRow.empty]
      else .error "annual endpoint down",
    yahooInfo := fun _ => .ok (some yahooFixture),
    exn := fun _ => none }

/-- Market fixture for the peer partial-failure scenario: the primary
`XYZ` and the Industrials peers `CNR.TO` and `BBD-B.TO` have TTM data
with P/E values `p`, `a` and `b`; analyzing the peer `AC.TO` raises an
unexpected exception; annual and Yahoo endpoints fail. -/
def peerFailMarket (a b p : ℚ) : Market :=
  { fmp := fun ep =>
      if ep = "ratios-ttm/XYZ.TRT" then .data [peRow p]
      else if ep = "ratios-ttm/CNR.TRT" then .data [peRow a]
      else if ep = "ratios-ttm/BBD-B.TRT" then .data [peRow b]
      else .error "endpoint down",
    yahooInfo := fun _ => .error "yahoo down",
    exn := fun s => if s = "AC.TO" then some "socket timeout" else none }

/-- Market fixture in which every provider call fails and every analysis
raises: the all-stages-fail scenario of the report assembler. -/
def allFailMarket : Market :=
  { fmp := fun _ => .error "provider down",
    yahooInfo := fun _ => .error "provider down",
    exn := fun _ => some "boom" }

/-- Market fixture in which every FMP endpoint fails with a structured
provider error while Yahoo Finance has full data. -/
def fallbackMarket : Market :=
  { fmp := fun _ => .error "FMP API Error: Invalid API key",
    yahooInfo := fun _ => .ok (some yahooFixture),
    exn := fun _ => none }

lemma roeTerm_le (x : Option ℚ) : roeTerm x ≤ 10 := by
  unfold roeTerm
  cases x with
  | none => simp
  | some v => dsimp only; split_ifs <;> simp

lemma marginTerm_le (x : Option ℚ) : marginTerm x ≤ 10 := by
  unfold marginTerm
  cases x with
  | none => simp
  | some v => dsimp only; split_ifs <;> simp

lemma currentRatioTerm_le (x : Option ℚ) : currentRatioTerm x ≤ 10 := by
  unfold currentRatioTerm
  cases x with
  | none => simp
  | some v => dsimp only; split_ifs <;> simp

lemma quickRatioTerm_le (x : Option ℚ) : quickRatioTerm x ≤ 10 := by
  unfold quickRatioTerm
  cases x with
  | none => simp
  | some v => dsimp only; split_ifs <;> simp

lemma leverageScore_le (x : Option ℚ) : leverageScore x ≤ 20 := by
  unfold leverageScore
  cases x with
  | none => simp
  | some v => dsimp only; split_ifs <;> simp

lemma peTerm_le (x : Option ℚ) : peTerm x ≤ 10 := by
  unfold peTerm
  cases x with
  | none => simp
  | some v => dsimp only; split_ifs <;> simp

lemma pbTerm_le (x : Option ℚ) : pbTerm x ≤ 10 := by
  unfold pbTerm
  cases x with
  | none => simp
  | some v => dsimp only; split_ifs <;> simp

lemma efficiencyScore_le (x : Option ℚ) : efficiencyScore x ≤ 20 := by
  unfold efficiencyScore
  cases x with
  | none => simp
  | some v => dsimp only; split_ifs <;> simp

/-- C4: for every combination of the eight metric inputs the scorer
reads, each category subscore lies in [0, 20] (the codomain ℕ already
gives integrality and nonnegativity), the total is exactly the sum of
the five subscores and lies in [0, 100], and scoring is deterministic —
it is a pure function, so identical inputs yield the identical
`ScoreBreakdown` by reflexivity. -/
theorem c4_health_score_bounds_and_determinism
    (roe net_margin current_ratio quick_ratio debt_to_equity pe_ratio
      pb_ratio asset_turnover : Option ℚ) :
    (healthScores roe net_margin current_ratio quick_ratio debt_to_equity
        pe_ratio pb_ratio asset_turnover).profitability ≤ 20 ∧
    (healthScores roe net_margin current_ratio quick_ratio debt_to_equity
        pe_ratio pb_ratio asset_turnover).liquidity ≤ 20 ∧
    (healthScores roe net_margin current_ratio quick_ratio debt_to_equity
        pe_ratio pb_ratio asset_turnover).leverage ≤ 20 ∧
    (healthScores roe net_margin current_ratio quick_ratio debt_to_equity
        pe_ratio pb_ratio asset_turnover).valuation ≤ 20 ∧
    (healthScores roe net_margin current_ratio quick_ratio debt_to_equity
        pe_ratio pb_ratio asset_turnover).efficiency ≤ 20 ∧
    (healthScores roe net_margin current_ratio quick_ratio debt_to_equity
        pe_ratio pb_ratio asset_turnover).total =
      (healthScores roe net_margin current_ratio quick_ratio debt_to_equity
        pe_ratio pb_ratio asset_turnover).profitability +
      (healthScores roe net_margin current_ratio quick_ratio debt_to_equity
        pe_ratio pb_ratio asset_turnover).liquidity +
      (healthScores roe net_margin current_ratio quick_ratio debt_to_equity
        pe_ratio pb_ratio asset_turnover).leverage +
      (healthScores roe net_margin current_ratio quick_ratio debt_to_equity
        pe_ratio pb_ratio asset_turnover).valuation +
      (healthScores roe net_margin current_ratio quick_ratio debt_to_equity
        pe_ratio pb_ratio asset_turnover).efficiency ∧
    (healthScores roe net_margin current_ratio quick_ratio debt_to_equity
        pe_ratio pb_ratio asset_turnover).total ≤ 100 ∧
    healthScores roe net_margin current_ratio quick_ratio debt_to_equity
        pe_ratio pb_ratio asset_turnover =
      healthScores roe net_margin current_ratio quick_ratio debt_to_equity
        pe_ratio pb_ratio asset_turnover := by
  have h1 := roeTerm_le roe
  have h2 := marginTerm_le net_margin
  have h3 := currentRatioTerm_le current_ratio
  have h4 := quickRatioTerm_le quick_ratio
  have h5 := leverageScore_le debt_to_equity
  have h6 := peTerm_le pe_ratio
  have h7 := pbTerm_le pb_ratio
  have h8 := efficiencyScore_le asset_turnover
  refine ⟨?_, ?_, ?_, ?_, ?_, ?_, ?_, rfl⟩ <;>
    simp only [healthScores, ScoreBreakdown.total] <;> omega

/-- C8: a `RatioSet` with the asset-turnover metric absent gets the
neutral efficiency subscore 10 (not 0), while every other metric, when
absent, contributes 0 to its sub-term. -/
theorem c8_efficiency_neutral_default
    (roe net_margin current_ratio quick_ratio debt_to_equity pe_ratio
      pb_ratio : Option ℚ) :
    (healthScores roe net_margin current_ratio quick_ratio debt_to_equity
        pe_ratio pb_ratio none).efficiency = 10 ∧
    roeTerm none = 0 ∧ marginTerm none = 0 ∧ currentRatioTerm none = 0 ∧
    quickRatioTerm none = 0 ∧ leverageScore none = 0 ∧ peTerm none = 0 ∧
    pbTerm none = 0 :=
  ⟨rfl, rfl, rfl, rfl, rfl, rfl, rfl, rfl⟩

lemma roeTerm_zero : roeTerm (some 0) = roeTerm none := by simp [roeTerm]

lemma marginTerm_zero : marginTerm (some 0) = marginTerm none := by
  simp [marginTerm]

lemma currentRatioTerm_zero :
    currentRatioTerm (some 0) = currentRatioTerm none := by
  simp [currentRatioTerm]

lemma quickRatioTerm_zero : quickRatioTerm (some 0) = quickRatioTerm none := by
  simp [quickRatioTerm]

lemma peTerm_zero : peTerm (some 0) = peTerm none := by simp [peTerm]

lemma pbTerm_zero : pbTerm (some 0) = pbTerm none := by simp [pbTerm]

lemma efficiencyScore_zero :
    efficiencyScore (some 0) = efficiencyScore none := by
  simp [efficiencyScore]

lemma leverageScore_zero : leverageScore (some 0) = 20 := by
  have h : ((0 : ℚ) ≤ 0.3) := by norm_num
  simp [leverageScore, h]

/-- C9: the scorer treats an explicit 0 exactly like a missing metric
for roe, net margin, current ratio, quick ratio, P/E, P/B and asset
turnover (the Python truthiness tests), so replacing any of those
metrics' 0 by "missing" leaves the whole `ScoreBreakdown` unchanged —
in particular a zero asset turnover still gets the neutral 10, not the
lowest band 5 — whereas debt-to-equity is tested with `is not None`, so
an explicit 0 there scores the full 20 leverage points. -/
theorem c9_zero_is_missing
    (roe net_margin current_ratio quick_ratio debt_to_equity pe_ratio
      pb_ratio asset_turnover : Option ℚ) :
    healthScores (some 0) net_margin current_ratio quick_ratio
        debt_to_equity pe_ratio pb_ratio asset_turnover =
      healthScores none net_margin current_ratio quick_ratio debt_to_equity
        pe_ratio pb_ratio asset_turnover ∧
    healthScores roe (some 0) current_ratio quick_ratio debt_to_equity
        pe_ratio pb_ratio asset_turnover =
      healthScores roe none current_ratio quick_ratio debt_to_equity
        pe_ratio pb_ratio asset_turnover ∧
    healthScores roe net_margin (some 0) quick_ratio debt_to_equity
        pe_ratio pb_ratio asset_turnover =
      healthScores roe net_margin none quick_ratio debt_to_equity pe_ratio
        pb_ratio asset_turnover ∧
    healthScores roe net_margin current_ratio (some 0) debt_to_equity
        pe_ratio pb_ratio asset_turnover =
      healthScores roe net_margin current_ratio none debt_to_equity
        pe_ratio pb_ratio asset_turnover ∧
    healthScores roe net_margin current_ratio quick_ratio debt_to_equity
        (some 0) pb_ratio asset_turnover =
      healthScores roe net_margin current_ratio quick_ratio debt_to_equity
        none pb_ratio asset_turnover ∧
    healthScores roe net_margin current_ratio quick_ratio debt_to_equity
        pe_ratio (some 0) asset_turnover =
      healthScores roe net_margin current_ratio quick_ratio debt_to_equity
        pe_ratio none asset_turnover ∧
    healthScores roe net_margin current_ratio quick_ratio debt_to_equity
        pe_ratio pb_ratio (some 0) =
      healthScores roe net_margin current_ratio quick_ratio debt_to_equity
        pe_ratio pb_ratio none ∧
    (healthScores roe net_margin current_ratio quick_ratio (some 0)
        pe_ratio pb_ratio asset_turnover).leverage = 20 ∧
    efficiencyScore (some 0) = 10 := by
  refine ⟨?_, ?_, ?_, ?_, ?_, ?_, ?_, ?_, ?_⟩
  · simp [healthScores, roeTerm_zero]
  · simp [healthScores, marginTerm_zero]
  · simp [healthScores, currentRatioTerm_zero]
  · simp [healthScores, quickRatioTerm_zero]
  · simp [healthScores, peTerm_zero]
  · simp [healthScores, pbTerm_zero]
  · simp [healthScores, efficiencyScore_zero]
  · simp [healthScores, leverageScore_zero]
  · exact efficiencyScore_zero

unseal Rat.mul Rat.inv Rat.sub Rat.add Rat.ofScientific in
/-- C1 counterexample: with peer P/E values 10, 20, 30 and primary value
25, the comparison classifies Above Average, but the percentile the code
computes is 50 — exactly 2 of the 4 combined values (10 and 20) are
strictly less than 25 — and not 75 as claimed. -/
theorem c1_counterexample :
    (compare_metric_across_peers (peOnlyAnalysis "AAA.TO" 25)
        percentilePeers .pe_ratio "P/E Ratio").map
      MetricComparison.percentile = some 50 ∧
    ((50 : ℚ) = 75 → False) := by
  constructor
  · decide
  · decide

unseal Rat.mul Rat.inv Rat.sub Rat.add Rat.ofScientific in
/-- C1 (amended): for the metric with peer values 10, 20, 30 and
primary value 25, the classification is Above Average (peer mean 20,
strict comparison) and the percentile — the proportion, times 100, of
the combined set of all peer values plus the primary value that is
strictly less than the primary value — equals 50 (2 of the 4 combined
values). -/
theorem c1_percentile_amended :
    compare_metric_across_peers (peOnlyAnalysis "AAA.TO" 25)
        percentilePeers .pe_ratio "P/E Ratio" =
      some { metric_name := "P/E Ratio", primary_value := 25,
             peer_average := 20,
             peer_values := [("TD.TO", 10), ("RY.TO", 20), ("CNR.TO", 30)],
             vs_peers := "Above Average", percentile := 50 } := by
  decide

/-- C5: symbol normalization is insensitive to case and surrounding
whitespace (inputs with the same cleaned form normalize identically),
it is total by construction, and it round-trips: for a well-formed
provider-form string — one fixed by cleaning, carrying that provider's
suffix — re-deriving that provider's form reproduces the string
exactly; when neither known suffix is present the venue defaults `.TO`
and `.TRT` are appended. -/
lemma pyEndsWith_trt_not_to (s : String)
    (h : pyEndsWith s ".TRT" = true) : pyEndsWith s ".TO" = false := by
  unfold pyEndsWith at h ⊢
  rw [List.isSuffixOf_iff_suffix] at h
  by_contra hto
  rw [Bool.not_eq_false, List.isSuffixOf_iff_suffix] at hto
  obtain ⟨t, ht⟩ := h
  obtain ⟨u, hu⟩ := hto
  have h1 : s.data.getLast? = some ('T' : Char) := by
    rw [← ht, List.getLast?_append]
    rfl
  have h2 : s.data.getLast? = some ('O' : Char) := by
    rw [← hu, List.getLast?_append]
    rfl
  rw [h1] at h2
  exact absurd h2 (by decide)

theorem c5_normalization_round_trip (s t : String) :
    (pyStrip (pyUpper s) = pyStrip (pyUpper t) →
      normalize_canadian_symbol s = normalize_canadian_symbol t) ∧
    (pyStrip (pyUpper s) = s →
      (pyEndsWith s ".TO" = true →
        (normalize_canadian_symbol s).1 = s) ∧
      (pyEndsWith s ".TRT" = true →
        (normalize_canadian_symbol s).2 = s) ∧
      (pyEndsWith s ".TO" = false → pyEndsWith s ".TRT" = false →
        normalize_canadian_symbol s = (pyCat s ".TO", pyCat s ".TRT"))) := by
  constructor
  · intro h
    unfold normalize_canadian_symbol
    rw [h]
  · intro hclean
    refine ⟨?_, ?_, ?_⟩
    · intro h1
      simp [normalize_canadian_symbol, hclean, h1]
    · intro h2
      have h1 := pyEndsWith_trt_not_to s h2
      simp [normalize_canadian_symbol, hclean, h1, h2]
    · intro h1 h2
      simp [normalize_canadian_symbol, hclean, h1, h2]

/-- Concrete instances of the C5 round-trip at the Yahoo form `TD.TO`,
the FMP form `RY.TRT`, a bare base symbol, and a case/whitespace
variant. -/
theorem c5_normalization_round_trip_witness :
    (normalize_canadian_symbol "TD.TO").1 = "TD.TO" ∧
    (normalize_canadian_symbol "RY.TRT").2 = "RY.TRT" ∧
    normalize_canadian_symbol "SHOP" = (pyCat "SHOP" ".TO", pyCat "SHOP" ".TRT") ∧
    normalize_canadian_symbol " td.to " = normalize_canadian_symbol "TD.TO" :=
  ⟨((c5_normalization_round_trip "TD.TO" "TD.TO").2 (by decide)).1 (by decide),
   (((c5_normalization_round_trip "RY.TRT" "RY.TRT").2 (by decide)).2.1
     (by decide)),
   (((c5_normalization_round_trip "SHOP" "SHOP").2 (by decide)).2.2
     (by decide) (by decide)),
   (c5_normalization_round_trip " td.to " "TD.TO").1 (by decide)⟩

/-- The raw-response kinds the retry loop retries: connection errors,
JSON parse errors, and well-formed-but-empty bodies. -/
def Retryable : RawResponse → Prop
  | .ok rows => rows = []
  | .errorPayload _ => False
  | .netError _ => True
  | .parseError _ => True
  | .otherError _ => False

lemma fetchGo_step_retry (responses : ℕ → RawResponse) (mr att n : ℕ)
    (hlt : att < mr - 1) (hr : Retryable (responses att)) :
    fetchGo responses mr att (n + 1) =
      { result := (fetchGo responses mr (att + 1) n).result,
        calls := (fetchGo responses mr (att + 1) n).calls + 1,
        sleeps := 2 ^ att :: (fetchGo responses mr (att + 1) n).sleeps } := by
  cases hresp : responses att <;> rw [hresp] at hr <;>
    simp [Retryable] at hr <;> simp [fetchGo, hresp, hlt, hr]

lemma fetchGo_sleeps_shape (responses : ℕ → RawResponse) (mr att n : ℕ) :
    (fetchGo responses mr att (n + 1)).sleeps = [] ∨
    (fetchGo responses mr att (n + 1)).sleeps =
      2 ^ att :: (fetchGo responses mr (att + 1) n).sleeps := by
  rw [fetchGo.eq_def]
  cases hresp : responses att <;> simp only [hresp] <;> (try split_ifs) <;> simp

lemma fetchGo_calls_le (responses : ℕ → RawResponse) (mr : ℕ) :
    ∀ (rem att : ℕ), (fetchGo responses mr att rem).calls ≤ rem := by
  intro rem
  induction rem with
  | zero => intro att; simp [fetchGo]
  | succ n ih =>
      intro att
      have h1 := ih (att + 1)
      unfold fetchGo
      cases responses att <;> dsimp only <;> (try split_ifs) <;> simp <;> omega

lemma fetchGo_all_retryable (responses : ℕ → RawResponse) (mr : ℕ)
    (h : ∀ i, Retryable (responses i)) :
    ∀ (n att : ℕ), att + n + 1 = mr →
      (fetchGo responses mr att (n + 1)).calls = n + 1 ∧
      (fetchGo responses mr att (n + 1)).sleeps =
        (List.range' att n).map (fun i => 2 ^ i) := by
  intro n
  induction n with
  | zero =>
      intro att hsum
      have hlt : ¬ att < mr - 1 := by omega
      have hr := h att
      cases hresp : responses att <;> rw [hresp] at hr <;>
        simp [Retryable] at hr <;>
        simp [fetchGo, hresp, hlt, hr]
  | succ k ih =>
      intro att hsum
      have hlt : att < mr - 1 := by omega
      have hih := ih (att + 1) (by omega)
      rw [fetchGo_step_retry responses mr att (k + 1) hlt (h att)]
      simp [hih.1, hih.2, List.range'_succ]

lemma fetchGo_sleeps_mono (responses : ℕ → RawResponse) (mr : ℕ) :
    ∀ (rem att : ℕ),
      ((fetchGo responses mr att rem).sleeps).Chain' (· < ·) ∧
      ∀ x ∈ (fetchGo responses mr att rem).sleeps, 2 ^ att ≤ x := by
  intro rem
  induction rem with
  | zero => intro att; simp [fetchGo]
  | succ n ih =>
      intro att
      have hih := ih (att + 1)
      have hpow : (2 : ℕ) ^ att < 2 ^ (att + 1) :=
        Nat.pow_lt_pow_right (by omega) (by omega)
      rcases fetchGo_sleeps_shape responses mr att n with hs | hs <;> rw [hs]
      · simp
      · constructor
        · rw [List.chain'_cons']
          refine ⟨fun b hb => ?_, hih.1⟩
          exact lt_of_lt_of_le hpow (hih.2 b (List.mem_of_mem_head? hb))
        · intro x hx
          rcases List.mem_cons.mp hx with rfl | hx2
          · exact le_refl _
          · exact le_trans (le_of_lt hpow) (hih.2 x hx2)

/-- C2 (amended): a ProviderError outcome (structured error payload)
results in exactly one call to the provider before fallback, but a
ParseError is retried exactly like a NetworkError — when every attempt
fails with a parse or network error the loop makes exactly
`max_retries` calls (at most `max_retries` for any response sequence,
never `max_retries + 1`), sleeping `2^attempt` between consecutive
attempts, a strictly increasing delay sequence. -/
theorem c2_retry_policy (responses : ℕ → RawResponse) (mr : ℕ) (m : String)
    (hmr : 1 ≤ mr) :
    (responses 0 = .errorPayload m →
      (fetch_fmp_data_with_retry responses mr).calls = 1) ∧
    ((∀ i, responses i = .netError m) →
      (fetch_fmp_data_with_retry responses mr).calls = mr ∧
      (fetch_fmp_data_with_retry responses mr).sleeps =
        (List.range (mr - 1)).map (fun i => 2 ^ i)) ∧
    ((∀ i, responses i = .parseError m) →
      (fetch_fmp_data_with_retry responses mr).calls = mr) ∧
    (fetch_fmp_data_with_retry responses mr).calls ≤ mr ∧
    ((fetch_fmp_data_with_retry responses mr).sleeps).Chain' (· < ·) := by
  obtain ⟨n, rfl⟩ : ∃ n, mr = n + 1 := ⟨mr - 1, by omega⟩
  refine ⟨?_, ?_, ?_, ?_, ?_⟩
  · intro h0
    unfold fetch_fmp_data_with_retry
    rw [fetchGo.eq_def]
    simp [h0]
  · intro hall
    have h := fetchGo_all_retryable responses (n + 1)
      (fun i => by rw [hall i]; trivial) n 0 (by omega)
    unfold fetch_fmp_data_with_retry
    simpa [List.range_eq_range'] using h
  · intro hall
    have h := fetchGo_all_retryable responses (n + 1)
      (fun i => by rw [hall i]; trivial) n 0 (by omega)
    unfold fetch_fmp_data_with_retry
    exact h.1
  · exact fetchGo_calls_le responses (n + 1) (n + 1) 0
  · exact (fetchGo_sleeps_mono responses (n + 1) (n + 1) 0).1

/-- C2 counterexample: with `max_retries = 3` and every attempt failing
with a JSON parse error, `fetch_fmp_data_with_retry` issues 3 calls to
the provider — a ParseError is retried, not the exactly-one-call
definitive failure the claim describes. -/
theorem c2_counterexample :
    (fetch_fmp_data_with_retry (fun _ => .parseError "bad body") 3).calls = 3 ∧
    ((3 : ℕ) = 1 → False) :=
  ⟨by decide, by decide⟩

/-- Concrete instances of the C2 theorem at `max_retries = 3`: three
calls with delays 1 and 2 for a constant network failure, one call for
a structured provider error. -/
theorem c2_retry_policy_witness :
    (fetch_fmp_data_with_retry (fun _ => .netError "timeout") 3).calls = 3 ∧
    (fetch_fmp_data_with_retry (fun _ => .netError "timeout") 3).sleeps =
      (List.range 2).map (fun i => 2 ^ i) ∧
    (fetch_fmp_data_with_retry
      (fun _ => .errorPayload "Invalid API key") 3).calls = 1 := by
  have h1 := c2_retry_policy (fun _ => .netError "timeout") 3 "timeout"
    (by decide)
  have h2 := c2_retry_policy (fun _ => .errorPayload "Invalid API key") 3
    "Invalid API key" (by decide)
  exact ⟨(h1.2.1 (fun i => rfl)).1, (h1.2.1 (fun i => rfl)).2, h2.1 rfl⟩

/-- C3 (amended): when the primary provider's TTM call returns a
Failure and its annual call also fails, the Yahoo fallback is consulted
and, succeeding with data, supplies every populated field of the result
(provenance `["Yahoo Finance"]`) while the primary's failure detail is
recorded in the error list.  However, the fallback fires only when no
FMP source string was recorded: a TTM Success with a non-empty row list
is adopted wholesale — even with zero usable fields — and blocks the
fallback (see the counterexample). -/
theorem c3_fallback_ordering (m : Market) (symbol e1 e2 : String)
    (info : YahooInfo)
    (hexn : m.exn symbol = none)
    (httm : m.fmp (pyCat "ratios-ttm/"
      (normalize_canadian_symbol symbol).2) = .error e1)
    (hann : m.fmp (pyCat "ratios/"
      (normalize_canadian_symbol symbol).2) = .error e2)
    (hyah : m.yahooInfo (normalize_canadian_symbol symbol).1 =
      .ok (some info)) :
    calculate_financial_ratios m symbol = .ok
      { symbol := (normalize_canadian_symbol symbol).1,
        data_sources := ["Yahoo Finance"],
        valuation_metrics := some ⟨info.trailingPE, info.priceToBook⟩,
        profitability_ratios := some ⟨info.returnOnEquity, info.profitMargins⟩,
        liquidity_ratios := some ⟨info.currentRatio, info.quickRatio⟩,
        leverage_ratios := some ⟨info.debtToEquity⟩,
        efficiency_ratios := none,
        roe_trend_pct := none,
        errors := [pyCat "FMP TTM ratios unavailable: " e1] } := by
  unfold calculate_financial_ratios
  rw [hexn]
  simp [calcRatiosCore, RatiosResult.init, httm, hann, hyah]

/-- C3 counterexample: the FMP TTM endpoint answers a Success whose one
row has zero usable fields; Yahoo Finance has full data, yet the result
adopts the empty FMP categories (provenance `["FMP TTM Ratios"]`) and
the Yahoo fallback is never consulted — the claim's
zero-usable-fields clause does not hold on the code. -/
theorem c3_counterexample :
    calculate_financial_ratios emptyRowMarket "XYZ" = .ok
      { symbol := "XYZ.TO",
        data_sources := ["FMP TTM Ratios"],
        valuation_metrics := some ⟨none, none⟩,
        profitability_ratios := some ⟨none, none⟩,
        liquidity_ratios := some ⟨none, none⟩,
        leverage_ratios := some ⟨none⟩,
        efficiency_ratios := some ⟨none⟩,
        roe_trend_pct := none,
        errors := [] } ∧
    emptyRowMarket.yahooInfo "XYZ.TO" = .ok (some yahooFixture) ∧
    yahooFixture.trailingPE = some 12 := by
  refine ⟨by rfl, by rfl, by decide⟩

/-- Concrete instance of the C3 theorem: FMP fails everywhere with a
structured error, Yahoo supplies the data and the provenance. -/
theorem c3_fallback_ordering_witness :
    calculate_financial_ratios fallbackMarket "XYZ" = .ok
      { symbol := (normalize_canadian_symbol "XYZ").1,
        data_sources := ["Yahoo Finance"],
        valuation_metrics := some ⟨yahooFixture.trailingPE,
          yahooFixture.priceToBook⟩,
        profitability_ratios := some ⟨yahooFixture.returnOnEquity,
          yahooFixture.profitMargins⟩,
        liquidity_ratios := some ⟨yahooFixture.currentRatio,
          yahooFixture.quickRatio⟩,
        leverage_ratios := some ⟨yahooFixture.debtToEquity⟩,
        efficiency_ratios := none,
        roe_trend_pct := none,
        errors := [pyCat "FMP TTM ratios unavailable: "
          "FMP API Error: Invalid API key"] } :=
  c3_fallback_ordering fallbackMarket "XYZ" "FMP API Error: Invalid API key"
    "FMP API Error: Invalid API key" yahooFixture rfl rfl rfl rfl

/-- C6 (amended): when exactly one of three sector peers fails to fetch
(its analysis raises and is skipped), the peer comparison still returns
comparisons computed from the remaining two peers — their values alone
feed the metric — but the failed peer is excluded silently: the
result's error list stays empty and does not name it. -/
theorem c6_partial_failure_isolation (a b p : ℚ) :
    (perform_peer_comparison (peerFailMarket a b p) "XYZ"
        (some "Industrials")).toOption.map PeerComparisonResult.errors =
      some [] ∧
    (perform_peer_comparison (peerFailMarket a b p) "XYZ"
        (some "Industrials")).toOption.map
      (fun r => r.peer_comparison.map
        (fun q => (q.1, q.2.metric_name, q.2.primary_value,
          q.2.peer_values))) =
      some [(.pe_ratio, "P/E Ratio", p, [("CNR.TO", a), ("BBD-B.TO", b)])] ∧
    (peerFailMarket a b p).exn "AC.TO" = some "socket timeout" :=
  ⟨rfl, rfl, rfl⟩

/-- C6 counterexample: in the one-failed-peer scenario the comparison
succeeds from the two surviving peers, yet the error list is empty —
it does not name the failed peer `AC.TO` as the claim requires. -/
theorem c6_counterexample :
    (perform_peer_comparison (peerFailMarket 10 30 25) "XYZ"
        (some "Industrials")).toOption.map PeerComparisonResult.errors =
      some [] ∧
    (perform_peer_comparison (peerFailMarket 10 30 25) "XYZ"
        (some "Industrials")).toOption.map
      (fun r => r.peer_comparison.length) = some 1 ∧
    (peerFailMarket 10 30 25).exn "AC.TO" = some "socket timeout" :=
  ⟨rfl, rfl, rfl⟩

lemma generate_data_quality (m : Market) (symbol : String) :
    (generate_comprehensive_report m symbol).data_quality =
      ⟨some (calculate_financial_ratios m symbol).isOk,
       some (analyze_financial_health_score m symbol).isOk,
       match tsxLookup (normalize_canadian_symbol symbol).1 with
       | some q => some (perform_peer_comparison m symbol (some q.2)).isOk
       | none => none⟩ := by
  unfold generate_comprehensive_report
  cases h3 : tsxLookup (normalize_canadian_symbol symbol).1 with
  | none =>
      cases h1 : calculate_financial_ratios m symbol <;>
      cases h2 : analyze_financial_health_score m symbol <;>
        simp [h1, h2, h3, Except.isOk, Except.toBool]
  | some q =>
      cases h4 : perform_peer_comparison m symbol (some q.2) <;>
      cases h1 : calculate_financial_ratios m symbol <;>
      cases h2 : analyze_financial_health_score m symbol <;>
        simp [h1, h2, h3, h4, Except.isOk, Except.toBool]

lemma generate_errors (m : Market) (symbol : String) :
    (generate_comprehensive_report m symbol).errors =
      (match calculate_financial_ratios m symbol with
       | .ok _ => []
       | .error e => [pyCat "Ratios analysis: " e]) ++
      (match analyze_financial_health_score m symbol with
       | .ok _ => []
       | .error e => [pyCat "Health score: " e]) ++
      (match tsxLookup (normalize_canadian_symbol symbol).1 with
       | some q =>
          match perform_peer_comparison m symbol (some q.2) with
          | .ok _ => []
          | .error e => [pyCat "Peer comparison: " e]
       | none => []) := by
  unfold generate_comprehensive_report
  cases h3 : tsxLookup (normalize_canadian_symbol symbol).1 with
  | none =>
      cases h1 : calculate_financial_ratios m symbol <;>
      cases h2 : analyze_financial_health_score m symbol <;>
        simp [h1, h2, h3]
  | some q =>
      cases h4 : perform_peer_comparison m symbol (some q.2) <;>
      cases h1 : calculate_financial_ratios m symbol <;>
      cases h2 : analyze_financial_health_score m symbol <;>
        simp [h1, h2, h3, h4]

/-- C7 (amended): the report assembler always returns a composed report
(it is a total function of the market and symbol), always records the
ratio and health-score availability flags, and — when every upstream
stage fails — records all three flags `false` and aggregates the three
stages' error messages.  However, the peer-comparison flag is recorded
only when the normalized symbol is a known TSX major stock; for any
other symbol the peer stage is skipped entirely and its flag is never
written. -/
theorem c7_report_assembly (m : Market) (symbol e : String) :
    (generate_comprehensive_report m symbol).data_quality.ratios_available ≠
      none ∧
    (generate_comprehensive_report
      m symbol).data_quality.health_score_available ≠ none ∧
    (tsxLookup (normalize_canadian_symbol symbol).1 = none →
      (generate_comprehensive_report
        m symbol).data_quality.peer_comparison_available = none) ∧
    ((tsxLookup (normalize_canadian_symbol symbol).1).isSome →
      (generate_comprehensive_report
        m symbol).data_quality.peer_comparison_available ≠ none) ∧
    (m.exn "TD.TO" = some e →
      (generate_comprehensive_report m "TD.TO").data_quality =
        ⟨some false, some false, some false⟩ ∧
      (generate_comprehensive_report m "TD.TO").errors =
        [pyCat "Ratios analysis: "
           (pyCat "Critical error in financial ratio calculation: " e),
         pyCat "Health score: " (pyCat "Could not calculate health score: "
           (pyCat "Critical error in financial ratio calculation: " e)),
         pyCat "Peer comparison: " (pyCat "Could not analyze primary stock: "
           (pyCat "Critical error in financial ratio calculation: " e))]) := by
  refine ⟨?_, ?_, ?_, ?_, ?_⟩
  · rw [generate_data_quality]
    simp
  · rw [generate_data_quality]
    simp
  · intro h
    rw [generate_data_quality]
    simp [h]
  · intro h
    obtain ⟨q, hq⟩ := Option.isSome_iff_exists.mp h
    rw [generate_data_quality]
    simp [hq]
  · intro hexn
    have hcalc : calculate_financial_ratios m "TD.TO" =
        .error (pyCat "Critical error in financial ratio calculation: " e) := by
      unfold calculate_financial_ratios
      rw [hexn]
    have hhealth : analyze_financial_health_score m "TD.TO" =
        .error (pyCat "Could not calculate health score: "
          (pyCat "Critical error in financial ratio calculation: " e)) := by
      unfold analyze_financial_health_score
      rw [hcalc]
    have hpeer : perform_peer_comparison m "TD.TO"
        (some "Financial Services") =
        .error (pyCat "Could not analyze primary stock: "
          (pyCat "Critical error in financial ratio calculation: " e)) := by
      unfold perform_peer_comparison
      rw [hcalc]
    have htsx : tsxLookup (normalize_canadian_symbol "TD.TO").1 =
        some ("Toronto-Dominion Bank", "Financial Services") := by decide
    constructor
    · rw [generate_data_quality]
      simp [hcalc, hhealth, htsx, hpeer, Except.isOk, Except.toBool]
    · rw [generate_errors]
      simp [hcalc, hhealth, htsx, hpeer]

/-- C7 counterexample: for the unknown symbol `ZZZ` with every stage
failing, the report records no peer-comparison availability flag at all
(the key is never written), contradicting the claim that a flag is
recorded for each sub-analysis. -/
theorem c7_counterexample :
    (generate_comprehensive_report allFailMarket
      "ZZZ").data_quality.peer_comparison_available = none ∧
    (generate_comprehensive_report allFailMarket
      "ZZZ").data_quality.ratios_available = some false ∧
    (generate_comprehensive_report allFailMarket
      "ZZZ").data_quality.health_score_available = some false :=
  ⟨rfl, rfl, rfl⟩

/-- Concrete instance of the C7 theorem on the all-failing market at
the TSX major `TD.TO` and the unknown symbol `ZZZ`. -/
theorem c7_report_assembly_witness :
    (generate_comprehensive_report allFailMarket
      "TD.TO").data_quality = ⟨some false, some false, some false⟩ ∧
    (generate_comprehensive_report allFailMarket
      "ZZZ.TO").data_quality.peer_comparison_available = none := by
  have h1 := (c7_report_assembly allFailMarket "TD.TO" "boom").2.2.2.2 rfl
  have h2 := (c7_report_assembly allFailMarket "ZZZ.TO" "boom").2.2.1
  exact ⟨h1.1, h2 (by decide)⟩

lemma batch_foldl_lengths (collect : String → CollectResult) :
    ∀ (l : List String)
      (acc : List (String × ℚ × ℤ) × List (String × String)),
      (l.foldl (batchStep collect) acc).1.length +
        (l.foldl (batchStep collect) acc).2.length =
      acc.1.length + acc.2.length + l.length := by
  intro l
  induction l with
  | nil => intro acc; simp
  | cons x xs ih =>
      intro acc
      rw [List.foldl_cons, ih]
      unfold batchStep
      cases collect x <;> simp <;> omega

/-- C10: batch collection silently truncates to five symbols — the
`successful` and `failed` lists together hold exactly
`min (length symbols) 5` entries, while `total_symbols` and the
`success_rate` denominator use the full input length; hence for more
than five symbols the reported success count can never exceed 5 out of
the full list length. -/
theorem c10_batch_truncation (collect : String → CollectResult)
    (symbols : List String) :
    (collect_multiple_stocks collect symbols).total_symbols =
      symbols.length ∧
    (collect_multiple_stocks collect symbols).successful.length +
      (collect_multiple_stocks collect symbols).failed.length =
      min symbols.length 5 ∧
    (collect_multiple_stocks collect symbols).successful.length ≤ 5 ∧
    (collect_multiple_stocks collect symbols).success_rate =
      toString (collect_multiple_stocks collect symbols).successful.length ++
        "/" ++ toString symbols.length := by
  have h := batch_foldl_lengths collect (symbols.take 5) ([], [])
  simp only [List.length_nil, Nat.zero_add, List.length_take] at h
  refine ⟨rfl, ?_, ?_, rfl⟩
  · show ((symbols.take 5).foldl (batchStep collect) ([], [])).1.length +
        ((symbols.take 5).foldl (batchStep collect) ([], [])).2.length =
        min symbols.length 5
    omega
  · show ((symbols.take 5).foldl (batchStep collect) ([], [])).1.length ≤ 5
    omega
